import Mathlib

/-!
Shallow embedding of `scripts/generate_icons.py` (the StreamWatch icon
generator) and proofs about it.

Modelling conventions:
* Colors are RGBA quadruples of channel values 0..255.  The Python source
  writes colors as hex strings ("#E31837"); the raster library decodes them
  to RGBA, which is what we embed.
* `FontEnv` packages everything the script obtains from the host
  environment: which truetype font files can be loaded
  (`ImageFont.truetype` succeeding or raising), the text bounding box
  reported by `draw.textbbox`, and which pixels a text-drawing call
  actually touches.  The script itself is a pure function of this
  environment.
* Python `int(x * 0.08)` style float-scale-then-truncate is embedded as
  exact rational truncation `x * 8 / 100` on naturals.
* Python `//` on possibly-negative integers is floor division, embedded as
  `Int.fdiv`.
* Rendering is embedded as a trace of drawing operations on a canvas with
  an initial fill; a pixel semantics (`pixelAt`) folds the operations in
  program order.  `rounded_rectangle` gets a concrete rasterization
  predicate; text drawing touches exactly the pixels the environment's
  coverage function says it touches.
* File output is embedded as the list of saved files `main` produces, in
  order; the multi-resolution ICO save call is recorded with its base
  image, appended images and size list, mirroring the keyword arguments of
  the `save` call in the source.
* `main` also receives an `ambient : Nat` parameter standing for ambient
  machine state the process could in principle observe (clock, RNG seed);
  the source never imports or reads any such state, so the embedding never
  consults it.  This makes determinism across runs expressible.
-/

namespace StreamWatch

/-- An RGBA color, one byte per channel. -/
structure Color where
  red : Nat
  green : Nat
  blue : Nat
  alpha : Nat
deriving DecidableEq

/-- `TMZ_RED = "#E31837"` decoded to RGBA (fully opaque). -/
def TMZ_RED : Color := ⟨0xE3, 0x18, 0x37, 255⟩

/-- `TMZ_BLACK = "#1A1A1A"` decoded to RGBA (defined in the source, unused). -/
def TMZ_BLACK : Color := ⟨0x1A, 0x1A, 0x1A, 255⟩

/-- `WHITE = "#FFFFFF"` decoded to RGBA. -/
def WHITE : Color := ⟨255, 255, 255, 255⟩

/-- `BG_COLOR = TMZ_RED`. -/
def BG_COLOR : Color := TMZ_RED

/-- `TEXT_COLOR = WHITE`. -/
def TEXT_COLOR : Color := WHITE

/-- The fully transparent pixel `(0, 0, 0, 0)` used by
`Image.new("RGBA", (size, size), (0, 0, 0, 0))`. -/
def TRANSPARENT : Color := ⟨0, 0, 0, 0⟩

/-- A font value as produced by the raster library: either a truetype font
loaded from a named file at a requested point size, or the built-in default
bitmap font (which has a fixed built-in size and takes no size argument). -/
inductive PFont where
  | truetype (name : String) (fontSize : Nat)
  | default
deriving DecidableEq

/-- A text bounding box as returned by `draw.textbbox((0, 0), text, font)`:
left, top, right, bottom offsets relative to the draw origin. -/
structure BBox where
  left : Int
  top : Int
  right : Int
  bottom : Int
deriving DecidableEq

/-- Everything the script obtains from the host environment:
* `loads name` — whether `ImageFont.truetype(name, sz)` succeeds (in the
  raster library this is a font-file lookup, independent of `sz`);
* `measure f s` — the bounding box `draw.textbbox((0,0), s, font := f)`;
* `textCover f s dx dy` — whether drawing string `s` with font `f` at the
  origin touches the pixel at relative coordinates `(dx, dy)`
  (anti-aliased partial coverage counts as touching). -/
structure FontEnv where
  loads : String → Bool
  measure : PFont → String → BBox
  textCover : PFont → String → Int → Int → Bool

/-- Physical adequacy of a font environment: a text draw only touches
pixels inside the measured bounding box. -/
def CoverWithinBBox (env : FontEnv) : Prop :=
  ∀ f s dx dy, env.textCover f s dx dy = true →
    (env.measure f s).left ≤ dx ∧ dx < (env.measure f s).right ∧
    (env.measure f s).top ≤ dy ∧ dy < (env.measure f s).bottom

/-- Python `int(size * (num / den))` with a nonnegative float factor,
embedded as exact rational truncation. -/
def int_scale (size num den : Nat) : Nat := size * num / den

/-- The `for font_name in font_names: try ... break except ... continue`
loop shared by both renderers: probe the names in order and return the
first truetype font that loads, or `none` when every attempt fails. -/
def tryFonts (env : FontEnv) (fontSize : Nat) : List String → Option PFont
  | [] => none
  | n :: rest =>
      if env.loads n then some (.truetype n fontSize) else tryFonts env fontSize rest

/-- The four-entry font list of `create_streamwatch_icon` (lines 45-50). -/
def std_font_names : List String :=
  ["arialbd.ttf", "Arial Bold.ttf", "DejaVuSans-Bold.ttf", "FreeSansBold.ttf"]

/-- The three-entry font list of `create_maskable_icon` (line 92). -/
def maskable_font_names : List String :=
  ["arialbd.ttf", "Arial Bold.ttf", "DejaVuSans-Bold.ttf"]

/-- Font size requested by `create_streamwatch_icon`: `int(size * 0.45)`. -/
def std_font_size (size : Nat) : Nat := int_scale size 45 100

/-- The font `create_streamwatch_icon` ends up drawing with (lines 44-62):
the first standard font name that loads, else the built-in default font. -/
def std_used_font (env : FontEnv) (size : Nat) : PFont :=
  match tryFonts env (std_font_size size) std_font_names with
  | some f => f
  | none => PFont.default

/-- Final value of the local `font_size` variable in
`create_streamwatch_icon`: it starts at `int(size * 0.45)` (line 41) and is
reassigned to `int(size * 0.3)` in the fallback branch (line 62). -/
def std_final_font_size (env : FontEnv) (size : Nat) : Nat :=
  match tryFonts env (std_font_size size) std_font_names with
  | some _ => std_font_size size
  | none => int_scale size 3 10

/-- `safe_zone = int(size * 0.8)` in `create_maskable_icon` (line 85). -/
def safe_zone (size : Nat) : Nat := int_scale size 8 10

/-- Font size requested by `create_maskable_icon` (line 89):
`int(safe_zone * 0.45)`, i.e. 45% of the 80% safe zone. -/
def maskable_font_size (size : Nat) : Nat := int_scale (safe_zone size) 45 100

/-- The font `create_maskable_icon` ends up drawing with (lines 91-102). -/
def maskable_used_font (env : FontEnv) (size : Nat) : PFont :=
  match tryFonts env (maskable_font_size size) maskable_font_names with
  | some f => f
  | none => PFont.default

/-- Final value of the local `font_size` variable in `create_maskable_icon`:
the fallback branch (lines 101-102) reassigns only `font`, never
`font_size`, so the variable keeps its line-89 value in every case. -/
def maskable_final_font_size (_env : FontEnv) (size : Nat) : Nat :=
  maskable_font_size size

/-- A drawing operation issued against an `ImageDraw` canvas, in the order
the script issues them. -/
inductive DrawOp where
  | roundedRect (x0 y0 x1 y1 radius : Int) (fill : Color)
  | text (x y : Int) (str : String) (fill : Color) (font : PFont)
deriving DecidableEq

/-- An in-memory square bitmap: its side length, the initial canvas fill
passed to `Image.new`, and the drawing operations applied on top. -/
structure Icon where
  size : Nat
  background : Color
  ops : List DrawOp
deriving DecidableEq

instance : Inhabited Icon := ⟨{ size := 0, background := TRANSPARENT, ops := [] }⟩

/-- Rasterization predicate of
`draw.rounded_rectangle([x0, y0, x1, y1], radius, fill)`: the pixel is
inside the bounding rectangle (the library treats `x1, y1` as inclusive)
and, when it falls in one of the four corner squares of side `radius`, it
is additionally within the quarter-disc of that corner. -/
def inRoundedRect (x0 y0 x1 y1 rad p q : Int) : Bool :=
  if p < x0 ∨ p > x1 ∨ q < y0 ∨ q > y1 then false
  else if p < x0 + rad ∧ q < y0 + rad then
    decide ((p - (x0 + rad)) * (p - (x0 + rad)) +
      (q - (y0 + rad)) * (q - (y0 + rad)) ≤ rad * rad)
  else if p > x1 - rad ∧ q < y0 + rad then
    decide ((p - (x1 - rad)) * (p - (x1 - rad)) +
      (q - (y0 + rad)) * (q - (y0 + rad)) ≤ rad * rad)
  else if p < x0 + rad ∧ q > y1 - rad then
    decide ((p - (x0 + rad)) * (p - (x0 + rad)) +
      (q - (y1 - rad)) * (q - (y1 - rad)) ≤ rad * rad)
  else if p > x1 - rad ∧ q > y1 - rad then
    decide ((p - (x1 - rad)) * (p - (x1 - rad)) +
      (q - (y1 - rad)) * (q - (y1 - rad)) ≤ rad * rad)
  else true

/-- Effect of one drawing operation on the pixel at `(p, q)`. -/
def applyOp (env : FontEnv) (op : DrawOp) (p q : Int) (c : Color) : Color :=
  match op with
  | .roundedRect x0 y0 x1 y1 rad fill =>
      if inRoundedRect x0 y0 x1 y1 rad p q then fill else c
  | .text x y str fill f =>
      if env.textCover f str (p - x) (q - y) then fill else c

/-- The color of the pixel at `(p, q)` after all drawing operations have
been applied, in program order, over the initial canvas fill. -/
def pixelAt (env : FontEnv) (icon : Icon) (p q : Int) : Color :=
  icon.ops.foldl (fun c op => applyOp env op p q c) icon.background

/-- `create_streamwatch_icon(size)` (lines 26-75): transparent canvas,
rounded-rectangle background inset by `int(size * 0.08)` with corner
radius `int(size * 0.18)`, then the label "SW" drawn centered using the
measured bounding box of the chosen font. -/
def create_streamwatch_icon (env : FontEnv) (size : Nat) : Icon :=
  let margin : Int := int_scale size 8 100
  let radius : Int := int_scale size 18 100
  let font := std_used_font env size
  let bbox := env.measure font "SW"
  let text_width := bbox.right - bbox.left
  let text_height := bbox.bottom - bbox.top
  let x := ((size : Int) - text_width).fdiv 2
  let y := ((size : Int) - text_height).fdiv 2 - bbox.top
  { size := size
    background := TRANSPARENT
    ops := [.roundedRect margin margin ((size : Int) - margin) ((size : Int) - margin)
              radius BG_COLOR,
            .text x y "SW" TEXT_COLOR font] }

/-- `create_maskable_icon(size)` (lines 78-115): canvas filled edge to edge
with `BG_COLOR`, no rounded rectangle, and the label "SW" drawn centered
with a font size derived from the 80% safe zone. -/
def create_maskable_icon (env : FontEnv) (size : Nat) : Icon :=
  let font := maskable_used_font env size
  let bbox := env.measure font "SW"
  let text_width := bbox.right - bbox.left
  let text_height := bbox.bottom - bbox.top
  let x := ((size : Int) - text_width).fdiv 2
  let y := ((size : Int) - text_height).fdiv 2 - bbox.top
  { size := size
    background := BG_COLOR
    ops := [.text x y "SW" TEXT_COLOR font] }

/-- Contents of one saved output file: either a single PNG image, or the
multi-resolution ICO container saved by
`ico_images[0].save(path, format="ICO", sizes=..., append_images=...)`,
recorded with the base image, the appended images and the size list. -/
inductive FileContent where
  | png (image : Icon)
  | ico (base : Icon) (appended : List Icon) (sizes : List (Nat × Nat))
deriving DecidableEq

/-- One file written by the generator: its path relative to the project
root, and its contents. -/
structure SavedFile where
  path : String
  content : FileContent
deriving DecidableEq

/-- Path join, as `os.path.join` behaves on the relative components the
script uses. -/
def joinPath (a b : String) : String := a ++ "/" ++ b

/-- `WEB_DIR`, relative to the project root `UI_DIR`. -/
def WEB_DIR : String := "web"

/-- `WINDOWS_DIR = os.path.join(UI_DIR, "windows", "runner", "resources")`,
relative to the project root. -/
def WINDOWS_DIR : String := joinPath (joinPath "windows" "runner") "resources"

/-- The `sizes` manifest of `main` (lines 126-130). -/
def web_sizes : List (String × Nat) :=
  [("favicon.png", 32), ("icons/Icon-192.png", 192), ("icons/Icon-512.png", 512)]

/-- The `maskable_sizes` manifest of `main` (lines 139-142). -/
def main_maskable_sizes : List (String × Nat) :=
  [("icons/Icon-maskable-192.png", 192), ("icons/Icon-maskable-512.png", 512)]

/-- The `ico_sizes` list of `main` (line 151). -/
def ico_sizes : List Nat := [16, 32, 48, 64, 128, 256]

/-- The `ico_images` list of `main` (line 152): the standard renderer
invoked once per size, in list order. -/
def ico_images (env : FontEnv) : List Icon := ico_sizes.map (create_streamwatch_icon env)

/-- `main()` (lines 118-166), as the ordered list of files it saves.
`ambient` stands for ambient machine state (clock, RNG); the script never
reads any, so the result cannot depend on it. -/
def main (env : FontEnv) (ambient : Nat) : List SavedFile :=
  let webFiles := web_sizes.map fun fs =>
    { path := joinPath WEB_DIR fs.1
      content := FileContent.png (create_streamwatch_icon env fs.2) : SavedFile }
  let maskFiles := main_maskable_sizes.map fun fs =>
    { path := joinPath WEB_DIR fs.1
      content := FileContent.png (create_maskable_icon env fs.2) : SavedFile }
  let icoFile : SavedFile :=
    { path := joinPath WINDOWS_DIR "app_icon.ico"
      content := FileContent.ico (ico_images env).headI (ico_images env).tail
        (ico_sizes.map fun s => (s, s)) }
  webFiles ++ maskFiles ++ [icoFile]

/-- The fonts of the text-drawing operations of an icon, in order. -/
def textFontsOf (icon : Icon) : List PFont :=
  icon.ops.filterMap fun op =>
    match op with
    | .text _ _ _ _ f => some f
    | _ => none

/-- The draw positions of the text-drawing operations of an icon, in order. -/
def textPosOf (icon : Icon) : List (Int × Int) :=
  icon.ops.filterMap fun op =>
    match op with
    | .text x y _ _ _ => some (x, y)
    | _ => none

/-- The rounded-rectangle operations of an icon, in order, as
`(x0, y0, x1, y1, radius, fill)` tuples. -/
def rectOpsOf (icon : Icon) : List (Int × Int × Int × Int × Int × Color) :=
  icon.ops.filterMap fun op =>
    match op with
    | .roundedRect x0 y0 x1 y1 rad fill => some (x0, y0, x1, y1, rad, fill)
    | _ => none

/-- Height of the measured bounding box of "SW" for a given font. -/
def measuredHeight (env : FontEnv) (f : PFont) : Int :=
  (env.measure f "SW").bottom - (env.measure f "SW").top

/-- A concrete environment in which no named font loads: `truetype` always
raises, the default font measures "SW" as an 8×8 box at the origin, and
text drawing touches no pixel (the coarsest coverage consistent with any
box). Used to evaluate the embedding on closed inputs. -/
def noFontEnv : FontEnv :=
  { loads := fun _ => false
    measure := fun _ _ => ⟨0, 0, 8, 8⟩
    textCover := fun _ _ _ _ => false }

/-- A concrete environment in which only "Arial Bold.ttf" loads, fonts
measure "SW" as a 10×12 box and text drawing touches exactly the measured
box. -/
def arialEnv : FontEnv :=
  { loads := fun n => n = "Arial Bold.ttf"
    measure := fun _ _ => ⟨1, 2, 11, 14⟩
    textCover := fun _ _ dx dy => 1 ≤ dx ∧ dx < 11 ∧ 2 ≤ dy ∧ dy < 14 }

/-! ### Helper lemmas about the font-probing loop -/

/-- If no name in the list loads, the probing loop returns no font. -/
lemma tryFonts_eq_none_of (env : FontEnv) (fs : Nat) (names : List String)
    (h : ∀ n ∈ names, env.loads n = false) : tryFonts env fs names = none := by
  induction names with
  | nil => rfl
  | cons n rest ih =>
      simp only [tryFonts]
      rw [if_neg]
      · exact ih fun m hm => h m (List.mem_cons_of_mem _ hm)
      · simp [h n (List.mem_cons_self _ _)]

/-- First-match characterization of the probing loop: a returned font is a
truetype font at the requested size, named by some list entry that loads,
and every entry before it fails to load. -/
lemma tryFonts_eq_some (env : FontEnv) (fs : Nat) (names : List String) (f : PFont)
    (h : tryFonts env fs names = some f) :
    ∃ pre n post, names = pre ++ n :: post ∧ f = PFont.truetype n fs ∧
      env.loads n = true ∧ ∀ m ∈ pre, env.loads m = false := by
  induction names with
  | nil => simp [tryFonts] at h
  | cons n rest ih =>
      by_cases hn : env.loads n = true
      · refine ⟨[], n, rest, rfl, ?_, hn, by simp⟩
        rw [tryFonts, if_pos hn, Option.some.injEq] at h
        exact h.symm
      · rw [tryFonts, if_neg hn] at h
        obtain ⟨pre, m, post, hsplit, hf, hld, hpre⟩ := ih h
        refine ⟨n :: pre, m, post, by rw [hsplit]; rfl, hf, hld, ?_⟩
        intro m' hm'
        rcases List.mem_cons.mp hm' with rfl | hm'
        · exact Bool.eq_false_iff.mpr fun hc => hn hc
        · exact hpre m' hm'

/-- The probing loop either fails or returns a truetype font at the
requested size. -/
lemma tryFonts_shape (env : FontEnv) (fs : Nat) (names : List String) :
    tryFonts env fs names = none ∨
    ∃ n, tryFonts env fs names = some (PFont.truetype n fs) := by
  induction names with
  | nil => exact Or.inl rfl
  | cons n rest ih =>
      by_cases hn : env.loads n = true
      · exact Or.inr ⟨n, by rw [tryFonts, if_pos hn]⟩
      · rw [tryFonts, if_neg hn]
        exact ih

/-- Every maskable font name is a standard font name. -/
lemma maskable_names_sub : ∀ n ∈ maskable_font_names, n ∈ std_font_names := by
  decide

/-! ### Helper lemmas for the pixel semantics -/

/-- Floor division of an integer at least 2 by 2 lands strictly inside
`[1, k - 1]`. -/
lemma fdiv_two_bounds (k : Int) (h : 2 ≤ k) : 1 ≤ k.fdiv 2 ∧ k.fdiv 2 ≤ k - 1 := by
  rw [Int.fdiv_eq_ediv _ (by norm_num)]
  omega

/-- A pixel outside the bounding rectangle is not painted by
`rounded_rectangle`. -/
lemma inRoundedRect_outside (x0 y0 x1 y1 rad p q : Int)
    (h : p < x0 ∨ p > x1 ∨ q < y0 ∨ q > y1) :
    inRoundedRect x0 y0 x1 y1 rad p q = false := by
  unfold inRoundedRect
  rw [if_pos h]

/-- The extreme bottom-right pixel `(x1, y1)` of the bounding rectangle is
not painted when the corner radius is at least 1: it lies at squared
distance `2·rad²` from the corner-arc center, outside the quarter-disc. -/
lemma inRoundedRect_br_corner (x0 y0 x1 y1 rad : Int)
    (hrad : 1 ≤ rad) (hx : x0 + rad ≤ x1) (hy : y0 + rad ≤ y1) :
    inRoundedRect x0 y0 x1 y1 rad x1 y1 = false := by
  unfold inRoundedRect
  rw [if_neg (by omega : ¬(x1 < x0 ∨ x1 > x1 ∨ y1 < y0 ∨ y1 > y1))]
  rw [if_neg (by omega : ¬(x1 < x0 + rad ∧ y1 < y0 + rad))]
  rw [if_neg (by omega : ¬(x1 > x1 - rad ∧ y1 < y0 + rad))]
  rw [if_neg (by omega : ¬(x1 < x0 + rad ∧ y1 > y1 - rad))]
  rw [if_pos (by omega : x1 > x1 - rad ∧ y1 > y1 - rad)]
  simp only [decide_eq_false_iff_not]
  intro hc
  have e1 : x1 - (x1 - rad) = rad := by ring
  have e2 : y1 - (y1 - rad) = rad := by ring
  rw [e1, e2] at hc
  have ht : (0 : Int) < rad * rad := mul_pos (by omega) (by omega)
  linarith

/-- No corner pixel of an `s × s` canvas is painted by a rounded rectangle
whose bounds sit at least one pixel inside the canvas with a positive
corner radius that fits between the bounds. -/
lemma rr_misses_corner (x0 y0 x1 y1 rad s p q : Int)
    (hx0 : 1 ≤ x0) (hy0 : 1 ≤ y0) (hrad : 1 ≤ rad)
    (hx : x0 + rad ≤ x1) (hy : y0 + rad ≤ y1)
    (hx1 : x1 ≤ s - 1) (hy1 : y1 ≤ s - 1)
    (hp : p = 0 ∨ p = s - 1) (hq : q = 0 ∨ q = s - 1) :
    inRoundedRect x0 y0 x1 y1 rad p q = false := by
  rcases hp with rfl | rfl
  · exact inRoundedRect_outside _ _ _ _ _ _ _ (Or.inl (by omega))
  · rcases hq with rfl | rfl
    · exact inRoundedRect_outside _ _ _ _ _ _ _ (Or.inr (Or.inr (Or.inl (by omega))))
    · rcases lt_or_eq_of_le hx1 with h | h
      · exact inRoundedRect_outside _ _ _ _ _ _ _ (Or.inr (Or.inl (by omega)))
      · rcases lt_or_eq_of_le hy1 with h' | h'
        · exact inRoundedRect_outside _ _ _ _ _ _ _ (Or.inr (Or.inr (Or.inr (by omega))))
        · nth_rewrite 2 [← h']
          rw [← h]
          exact inRoundedRect_br_corner x0 y0 x1 y1 rad hrad hx hy

/-- A rounded-rectangle operation leaves a pixel it does not cover
unchanged. -/
lemma applyOp_rect_miss (env : FontEnv) (x0 y0 x1 y1 rad : Int) (fill : Color)
    (p q : Int) (c : Color) (h : inRoundedRect x0 y0 x1 y1 rad p q = false) :
    applyOp env (.roundedRect x0 y0 x1 y1 rad fill) p q c = c := by
  simp [applyOp, h]

/-- A text operation leaves a pixel it does not cover unchanged. -/
lemma applyOp_text_miss (env : FontEnv) (x y : Int) (str : String) (fill : Color)
    (f : PFont) (p q : Int) (c : Color)
    (h : env.textCover f str (p - x) (q - y) = false) :
    applyOp env (.text x y str fill f) p q c = c := by
  simp [applyOp, h]

/-- With the script's centered vertical draw position, a text whose
measured height leaves at least one pixel of slack at the top and bottom
never touches the first or last row of the canvas. -/
lemma text_misses_border_rows (env : FontEnv) (hcov : CoverWithinBBox env)
    (f : PFont) (size dx q : Int)
    (hh : measuredHeight env f ≤ size - 2)
    (hq : q = 0 ∨ q = size - 1) :
    env.textCover f "SW" dx
      (q - (((size - ((env.measure f "SW").bottom - (env.measure f "SW").top)).fdiv 2) -
        (env.measure f "SW").top)) = false := by
  unfold measuredHeight at hh
  by_contra hc
  rw [Bool.not_eq_false] at hc
  obtain ⟨h1, h2, h3, h4⟩ := hcov f "SW" _ _ hc
  have h2span : 2 ≤ size - ((env.measure f "SW").bottom - (env.measure f "SW").top) := by
    omega
  have hf := fdiv_two_bounds _ h2span
  omega

/-- Unfolding of the standard icon's pixel semantics: the text operation
applied over the rounded rectangle applied over a transparent canvas. -/
lemma pixelAt_std (env : FontEnv) (s : Nat) (p q : Int) :
    pixelAt env (create_streamwatch_icon env s) p q =
      applyOp env
        (.text
          (((s : Int) - ((env.measure (std_used_font env s) "SW").right -
            (env.measure (std_used_font env s) "SW").left)).fdiv 2)
          ((((s : Int) - ((env.measure (std_used_font env s) "SW").bottom -
            (env.measure (std_used_font env s) "SW").top)).fdiv 2) -
            (env.measure (std_used_font env s) "SW").top)
          "SW" TEXT_COLOR (std_used_font env s)) p q
        (applyOp env
          (.roundedRect ((int_scale s 8 100 : Nat) : Int)
            ((int_scale s 8 100 : Nat) : Int)
            ((s : Int) - ((int_scale s 8 100 : Nat) : Int))
            ((s : Int) - ((int_scale s 8 100 : Nat) : Int))
            ((int_scale s 18 100 : Nat) : Int) BG_COLOR) p q TRANSPARENT) := rfl

/-- Unfolding of the maskable icon's pixel semantics: the text operation
applied over a canvas filled with the background color. -/
lemma pixelAt_mask (env : FontEnv) (s : Nat) (p q : Int) :
    pixelAt env (create_maskable_icon env s) p q =
      applyOp env
        (.text
          (((s : Int) - ((env.measure (maskable_used_font env s) "SW").right -
            (env.measure (maskable_used_font env s) "SW").left)).fdiv 2)
          ((((s : Int) - ((env.measure (maskable_used_font env s) "SW").bottom -
            (env.measure (maskable_used_font env s) "SW").top)).fdiv 2) -
            (env.measure (maskable_used_font env s) "SW").top)
          "SW" TEXT_COLOR (maskable_used_font env s)) p q BG_COLOR := rfl

/-- Corner pixels of the standard icon are transparent whenever the inset
rounded rectangle sits strictly inside the canvas and the measured text
height leaves a pixel of slack. -/
lemma std_corner_transparent (env : FontEnv) (hcov : CoverWithinBBox env) (s : Nat)
    (hm : 1 ≤ ((int_scale s 8 100 : Nat) : Int))
    (hrad : 1 ≤ ((int_scale s 18 100 : Nat) : Int))
    (hsum : ((int_scale s 8 100 : Nat) : Int) + ((int_scale s 18 100 : Nat) : Int) ≤
      (s : Int) - ((int_scale s 8 100 : Nat) : Int))
    (hh : measuredHeight env (std_used_font env s) ≤ (s : Int) - 2)
    (p q : Int) (hp : p = 0 ∨ p = (s : Int) - 1) (hq : q = 0 ∨ q = (s : Int) - 1) :
    pixelAt env (create_streamwatch_icon env s) p q = TRANSPARENT := by
  rw [pixelAt_std]
  rw [applyOp_rect_miss _ _ _ _ _ _ _ _ _ _
    (rr_misses_corner _ _ _ _ _ ((s : Int)) p q hm hm hrad hsum hsum
      (by omega) (by omega) hp hq)]
  exact applyOp_text_miss _ _ _ _ _ _ _ _ _
    (text_misses_border_rows env hcov _ _ _ _ hh hq)

/-- Corner pixels (indeed the whole first and last rows) of the maskable
icon equal the background color whenever the measured text height leaves a
pixel of slack. -/
lemma maskable_corner_bg (env : FontEnv) (hcov : CoverWithinBBox env) (s : Nat)
    (hh : measuredHeight env (maskable_used_font env s) ≤ (s : Int) - 2)
    (p q : Int) (hq : q = 0 ∨ q = (s : Int) - 1) :
    pixelAt env (create_maskable_icon env s) p q = BG_COLOR := by
  rw [pixelAt_mask]
  exact applyOp_text_miss _ _ _ _ _ _ _ _ _
    (text_misses_border_rows env hcov _ _ _ _ hh hq)

/-! ### Claim theorems -/

/-- C1 counterexample: the claim says the entry point creates exactly 8
files; running the embedded `main` in a concrete environment creates
exactly 6 files, not 8. -/
theorem C1_not_eight_files_cex :
    (main noFontEnv 0).length = 6 ∧ ¬ (main noFontEnv 0).length = 8 := by
  have h6 : (main noFontEnv 0).length = 6 := rfl
  exact ⟨h6, by omega⟩

/-- C1 (amended): running the entry point creates exactly 6 files, at
exactly the six paths listed in section 6 of the spec, in program order,
and no other files, regardless of the font environment and of ambient
machine state. -/
theorem C1_main_writes_six_files (env : FontEnv) (ambient : Nat) :
    (main env ambient).map SavedFile.path =
      ["web/favicon.png", "web/icons/Icon-192.png", "web/icons/Icon-512.png",
       "web/icons/Icon-maskable-192.png", "web/icons/Icon-maskable-512.png",
       "windows/runner/resources/app_icon.ico"] ∧
    (main env ambient).length = 6 := by
  exact ⟨rfl, rfl⟩

/-- C2 counterexample: the claim says the maskable renderer also shrinks
its font size to ≈30% of the requested size when no named font loads; in
the code the maskable fallback branch reassigns only the font, so at size
512 with no fonts available the font-size variable stays at 184 (45% of
the 409-pixel safe zone), not 153 (30% of 512). -/
theorem C2_no_maskable_shrink_cex :
    maskable_used_font noFontEnv 512 = PFont.default ∧
    maskable_final_font_size noFontEnv 512 = 184 ∧
    int_scale 512 3 10 = 153 ∧
    ¬ maskable_final_font_size noFontEnv 512 = int_scale 512 3 10 := by
  decide

/-- C2 (amended): when none of the named bold fonts loads, both renderers
fall back to the built-in default font; the standard renderer then shrinks
its font-size variable to ≈30% of the requested size (versus ≈45% when a
named font loads), while the maskable renderer leaves its font-size
variable at 45% of the safe zone (the shrink only exists in the standard
renderer, and in both cases the default font renders at its own fixed
built-in size). -/
theorem C2_fallback_sizes (env : FontEnv) (size : Nat)
    (h : ∀ n ∈ std_font_names, env.loads n = false) :
    std_used_font env size = PFont.default ∧
    std_final_font_size env size = int_scale size 3 10 ∧
    maskable_used_font env size = PFont.default ∧
    maskable_final_font_size env size = maskable_font_size size := by
  have hstd : tryFonts env (std_font_size size) std_font_names = none :=
    tryFonts_eq_none_of _ _ _ h
  have hmask : tryFonts env (maskable_font_size size) maskable_font_names = none :=
    tryFonts_eq_none_of _ _ _ fun n hn => h n (maskable_names_sub n hn)
  refine ⟨?_, ?_, ?_, rfl⟩
  · rw [std_used_font, hstd]
  · rw [std_final_font_size, hstd]
  · rw [maskable_used_font, hmask]

/-- C2 witness: the amended statement at the concrete no-font environment
and size 512. -/
theorem C2_fallback_sizes_witness :
    std_used_font noFontEnv 512 = PFont.default ∧
    std_final_font_size noFontEnv 512 = int_scale 512 3 10 ∧
    maskable_used_font noFontEnv 512 = PFont.default ∧
    maskable_final_font_size noFontEnv 512 = maskable_font_size 512 :=
  C2_fallback_sizes noFontEnv 512 (by decide)

/-- C3: when every attempt to load a named font fails, neither renderer's
embedding takes a failing path: both are total functions that still
produce an icon, and the single text-drawing operation of each icon uses
the built-in default font. -/
theorem C3_no_raise_default_font (env : FontEnv) (size : Nat)
    (h : ∀ n ∈ std_font_names, env.loads n = false) :
    textFontsOf (create_streamwatch_icon env size) = [PFont.default] ∧
    textFontsOf (create_maskable_icon env size) = [PFont.default] := by
  have hstd : tryFonts env (std_font_size size) std_font_names = none :=
    tryFonts_eq_none_of _ _ _ h
  have hmask : tryFonts env (maskable_font_size size) maskable_font_names = none :=
    tryFonts_eq_none_of _ _ _ fun n hn => h n (maskable_names_sub n hn)
  constructor
  · show [std_used_font env size] = [PFont.default]
    rw [std_used_font, hstd]
  · show [maskable_used_font env size] = [PFont.default]
    rw [maskable_used_font, hmask]

/-- C3 witness: the statement at the concrete no-font environment and
size 192. -/
theorem C3_no_raise_default_font_witness :
    textFontsOf (create_streamwatch_icon noFontEnv 192) = [PFont.default] ∧
    textFontsOf (create_maskable_icon noFontEnv 192) = [PFont.default] :=
  C3_no_raise_default_font noFontEnv 192 (by decide)

/-- C9: the generator is deterministic: with the same font environment,
two runs under different ambient machine state (clock, RNG seed) produce
identical output file lists, byte-for-byte in the embedding. -/
theorem C9_deterministic_output (env : FontEnv) (a1 a2 : Nat) :
    main env a1 = main env a2 := rfl

/-- C10: in the standard renderer's fallback branch the font-size variable
is recomputed to 30% of the requested size after the default font is
loaded, but the drawn text's font is the built-in default font, which
carries no size parameter; hence with no named font available the label's
glyph size is the default font's fixed built-in size, identical across all
requested icon sizes. -/
theorem C10_fallback_size_dead (env : FontEnv) (s1 s2 : Nat)
    (h : ∀ n ∈ std_font_names, env.loads n = false) :
    std_final_font_size env s1 = int_scale s1 3 10 ∧
    textFontsOf (create_streamwatch_icon env s1) = [PFont.default] ∧
    textFontsOf (create_streamwatch_icon env s1) =
      textFontsOf (create_streamwatch_icon env s2) := by
  have hstd : ∀ s : Nat, tryFonts env (std_font_size s) std_font_names = none :=
    fun s => tryFonts_eq_none_of _ _ _ h
  have hfont : ∀ s : Nat, textFontsOf (create_streamwatch_icon env s) = [PFont.default] := by
    intro s
    show [std_used_font env s] = [PFont.default]
    rw [std_used_font, hstd s]
  refine ⟨?_, hfont s1, (hfont s1).trans (hfont s2).symm⟩
  rw [std_final_font_size, hstd s1]

/-- C10 witness: the statement at the concrete no-font environment with
sizes 16 and 512. -/
theorem C10_fallback_size_dead_witness :
    std_final_font_size noFontEnv 16 = int_scale 16 3 10 ∧
    textFontsOf (create_streamwatch_icon noFontEnv 16) = [PFont.default] ∧
    textFontsOf (create_streamwatch_icon noFontEnv 16) =
      textFontsOf (create_streamwatch_icon noFontEnv 512) :=
  C10_fallback_size_dead noFontEnv 16 512 (by decide)

/-- C4: in both renderers, the label's single draw position is
horizontally `(size − measured width)` floor-divided by 2 and vertically
`(size − measured height)` floor-divided by 2 shifted upward by the
measured bounding box's top offset, where width and height come from the
bounding box `(left, top, right, bottom)` measured for the chosen font
("/ 2" in the source is Python floor division `//`). -/
theorem C4_text_centering (env : FontEnv) (size : Nat) :
    textPosOf (create_streamwatch_icon env size) =
      [((((size : Int) - ((env.measure (std_used_font env size) "SW").right -
            (env.measure (std_used_font env size) "SW").left)).fdiv 2),
        (((size : Int) - ((env.measure (std_used_font env size) "SW").bottom -
            (env.measure (std_used_font env size) "SW").top)).fdiv 2 -
          (env.measure (std_used_font env size) "SW").top))] ∧
    textPosOf (create_maskable_icon env size) =
      [((((size : Int) - ((env.measure (maskable_used_font env size) "SW").right -
            (env.measure (maskable_used_font env size) "SW").left)).fdiv 2),
        (((size : Int) - ((env.measure (maskable_used_font env size) "SW").bottom -
            (env.measure (maskable_used_font env size) "SW").top)).fdiv 2 -
          (env.measure (maskable_used_font env size) "SW").top))] :=
  ⟨rfl, rfl⟩

/-- C5: for every requested size S the standard renderer draws exactly one
rounded-rectangle background, inset by `int(S * 0.08)` on each side with
corner radius `int(S * 0.18)`; the maskable renderer's canvas is filled
edge to edge with the background color, draws no rounded rectangle, and
its font size is 45% of the 80%-of-S safe zone; when a named font loads,
the maskable renderer's truetype font carries that safe-zone-derived size,
not a full-canvas-derived one. -/
theorem C5_background_geometry (env : FontEnv) (size : Nat) :
    rectOpsOf (create_streamwatch_icon env size) =
      [(((int_scale size 8 100 : Nat) : Int), ((int_scale size 8 100 : Nat) : Int),
        (size : Int) - ((int_scale size 8 100 : Nat) : Int),
        (size : Int) - ((int_scale size 8 100 : Nat) : Int),
        ((int_scale size 18 100 : Nat) : Int), BG_COLOR)] ∧
    (create_maskable_icon env size).background = BG_COLOR ∧
    rectOpsOf (create_maskable_icon env size) = [] ∧
    maskable_font_size size = int_scale (safe_zone size) 45 100 ∧
    safe_zone size = int_scale size 8 10 ∧
    (maskable_used_font env size = PFont.default ∨
      ∃ n, maskable_used_font env size = PFont.truetype n (maskable_font_size size)) := by
  refine ⟨rfl, rfl, rfl, rfl, rfl, ?_⟩
  rcases tryFonts_shape env (maskable_font_size size) maskable_font_names with hn | ⟨n, hn⟩
  · exact Or.inl (by rw [maskable_used_font, hn])
  · exact Or.inr ⟨n, by rw [maskable_used_font, hn]⟩

/-- C7: the Windows icon container is built by invoking the standard
renderer once per size in [16, 32, 48, 64, 128, 256], in that order; the
16-pixel bitmap is the base image of the save call, the other five are
appended as additional embedded resolutions, the container is written to
`windows/runner/resources/app_icon.ico` as the last file of the run, and
the embedded variants are exactly 6 square images of those dimensions. -/
theorem C7_ico_container (env : FontEnv) (ambient : Nat) :
    (main env ambient).getLast? = some
      { path := "windows/runner/resources/app_icon.ico"
        content := FileContent.ico (create_streamwatch_icon env 16)
          [create_streamwatch_icon env 32, create_streamwatch_icon env 48,
           create_streamwatch_icon env 64, create_streamwatch_icon env 128,
           create_streamwatch_icon env 256]
          [(16, 16), (32, 32), (48, 48), (64, 64), (128, 128), (256, 256)] } ∧
    ico_images env = ico_sizes.map (create_streamwatch_icon env) ∧
    (ico_images env).map Icon.size = [16, 32, 48, 64, 128, 256] ∧
    (ico_images env).length = 6 :=
  ⟨rfl, rfl, rfl, rfl⟩

/-- C8: font probing is deterministic and order-preserving in both
renderers: the standard list has exactly four entries, the maskable list
is exactly the first three of the standard list, and any font either loop
returns is the first list entry that loads, every earlier entry having
failed to load. -/
theorem C8_font_selection_first_match (env env2 : FontEnv) (fs fs2 : Nat)
    (f f2 : PFont)
    (h : tryFonts env fs std_font_names = some f)
    (h2 : tryFonts env2 fs2 maskable_font_names = some f2) :
    std_font_names.length = 4 ∧
    maskable_font_names = std_font_names.take 3 ∧
    (∃ pre n post, std_font_names = pre ++ n :: post ∧ f = PFont.truetype n fs ∧
      env.loads n = true ∧ ∀ m ∈ pre, env.loads m = false) ∧
    (∃ pre n post, maskable_font_names = pre ++ n :: post ∧
      f2 = PFont.truetype n fs2 ∧
      env2.loads n = true ∧ ∀ m ∈ pre, env2.loads m = false) :=
  ⟨rfl, rfl, tryFonts_eq_some _ _ _ _ h, tryFonts_eq_some _ _ _ _ h2⟩

/-- C8 witness: in the concrete environment where only "Arial Bold.ttf"
loads, both loops pick it after the first entry fails. -/
theorem C8_font_selection_first_match_witness :
    std_font_names.length = 4 ∧
    maskable_font_names = std_font_names.take 3 ∧
    (∃ pre n post, std_font_names = pre ++ n :: post ∧
      PFont.truetype "Arial Bold.ttf" 10 = PFont.truetype n 10 ∧
      arialEnv.loads n = true ∧ ∀ m ∈ pre, arialEnv.loads m = false) ∧
    (∃ pre n post, maskable_font_names = pre ++ n :: post ∧
      PFont.truetype "Arial Bold.ttf" 20 = PFont.truetype n 20 ∧
      arialEnv.loads n = true ∧ ∀ m ∈ pre, arialEnv.loads m = false) :=
  C8_font_selection_first_match arialEnv arialEnv 10 20
    (PFont.truetype "Arial Bold.ttf" 10) (PFont.truetype "Arial Bold.ttf" 20)
    (by decide) (by decide)

/-- C6: for every size in the manifest (web, maskable and ICO sizes), in
any font environment whose text drawing stays within the measured bounding
box and whose measured label height leaves at least one pixel of slack,
every corner pixel of a standard icon is fully transparent and every
corner pixel of a maskable icon is fully opaque and equals the brand
background color. -/
theorem C6_corner_pixels (env : FontEnv) (s : Nat)
    (hcov : CoverWithinBBox env)
    (hs : s ∈ ([16, 32, 48, 64, 128, 192, 256, 512] : List Nat))
    (hstd : measuredHeight env (std_used_font env s) ≤ (s : Int) - 2)
    (hmask : measuredHeight env (maskable_used_font env s) ≤ (s : Int) - 2)
    (p q : Int) (hp : p = 0 ∨ p = (s : Int) - 1) (hq : q = 0 ∨ q = (s : Int) - 1) :
    pixelAt env (create_streamwatch_icon env s) p q = TRANSPARENT ∧
    pixelAt env (create_maskable_icon env s) p q = BG_COLOR ∧
    BG_COLOR.alpha = 255 := by
  have hs' : s = 16 ∨ s = 32 ∨ s = 48 ∨ s = 64 ∨ s = 128 ∨ s = 192 ∨ s = 256 ∨
      s = 512 := by
    simpa using hs
  have hnum : 1 ≤ ((int_scale s 8 100 : Nat) : Int) ∧
      1 ≤ ((int_scale s 18 100 : Nat) : Int) ∧
      ((int_scale s 8 100 : Nat) : Int) + ((int_scale s 18 100 : Nat) : Int) ≤
        (s : Int) - ((int_scale s 8 100 : Nat) : Int) := by
    rcases hs' with rfl | rfl | rfl | rfl | rfl | rfl | rfl | rfl <;>
      exact ⟨by decide, by decide, by decide⟩
  exact ⟨std_corner_transparent env hcov s hnum.1 hnum.2.1 hnum.2.2 hstd p q hp hq,
    maskable_corner_bg env hcov s hmask p q hq, rfl⟩

/-- C6 witness: at the concrete no-font environment and size 32, the
top-left corner pixel of the standard icon is transparent and of the
maskable icon is the opaque brand background color. -/
theorem C6_corner_pixels_witness :
    pixelAt noFontEnv (create_streamwatch_icon noFontEnv 32) 0 0 = TRANSPARENT ∧
    pixelAt noFontEnv (create_maskable_icon noFontEnv 32) 0 0 = BG_COLOR ∧
    BG_COLOR.alpha = 255 :=
  C6_corner_pixels noFontEnv 32 (fun f s dx dy h => by simp [noFontEnv] at h)
    (by decide) (by decide) (by decide) 0 0 (Or.inl rfl) (Or.inl rfl)

end StreamWatch
